import Mathlib

/-!
Verification of the session and topic-dispatch engine of the `ts-p2p`
repository (`@bsv/teranode-listener`).  The definitions below are a shallow
embedding of `class P2PNode` from `src/index.ts`: pure functions model the
pure computations, stateful methods become explicit functions on a state
type, external effects (libp2p dialing, pubsub, the peer store) are passed
in as oracles, and fallible operations return `Except`/`Option`.
-/

namespace TsP2P

/-! ### Pre-shared-key token derivation (P2PNode.init, PSK formatting)

The source formats the private-admission secret as
`/key/swarm/psk/1.0.0/\n/base16/\n` followed by the hex secret, and
byte-encodes the result with `new TextEncoder().encode(...)` (UTF-8). -/

/-- First line of the PSK envelope: the schema tag with its newline. -/
def schemaTagLine : String := "/key/swarm/psk/1.0.0/\n"

/-- Second line of the PSK envelope: the encoding tag with its newline. -/
def encodingTagLine : String := "/base16/\n"

/-- The PSK template string from `P2PNode.init`:
the fixed envelope followed by the configured hex shared key. -/
def pskString (sharedKey : String) : String :=
  "/key/swarm/psk/1.0.0/\n/base16/\n" ++ sharedKey

/-- UTF-8 encoding of a single character, as performed by `TextEncoder`. -/
def utf8EncodeChar (c : Char) : List Nat :=
  let n := c.toNat
  if n < 128 then [n]
  else if n < 2048 then [192 + n / 64, 128 + n % 64]
  else if n < 65536 then [224 + n / 4096, 128 + n / 64 % 64, 128 + n % 64]
  else [240 + n / 262144, 128 + n / 4096 % 64, 128 + n / 64 % 64, 128 + n % 64]

/-- UTF-8 encoding of a string (`new TextEncoder().encode(s)`). -/
def encodeUTF8 (s : String) : List Nat :=
  s.data.flatMap utf8EncodeChar

/-- The derived private-admission token bytes handed to `preSharedKey`. -/
def pskBytes (sharedKey : String) : List Nat :=
  encodeUTF8 (pskString sharedKey)

/-- The hexadecimal digits (the alphabet of a hex shared-key string). -/
def hexDigits : List Char :=
  "0123456789abcdefABCDEF".data

/-- A shared key is a hex secret: every character is a hexadecimal digit. -/
def isHexKey (s : String) : Bool :=
  s.data.all fun c => decide (c ∈ hexDigits)

theorem hexDigits_ascii : ∀ c ∈ hexDigits, c.toNat < 128 := by
  intro c hc
  have hall : hexDigits.all (fun c => decide (c.toNat < 128)) = true := by decide
  exact of_decide_eq_true (List.all_eq_true.mp hall c hc)

theorem hexKey_ascii (s : String) (h : isHexKey s = true) :
    ∀ c ∈ s.data, c.toNat < 128 := by
  intro c hc
  exact hexDigits_ascii c (of_decide_eq_true (List.all_eq_true.mp h c hc))

theorem encodeChars_ascii (l : List Char) (h : ∀ c ∈ l, c.toNat < 128) :
    l.flatMap utf8EncodeChar = l.map Char.toNat := by
  induction l with
  | nil => rfl
  | cons a t ih =>
    have ha : a.toNat < 128 := h a (List.mem_cons_self a t)
    have ht : ∀ c ∈ t, c.toNat < 128 := fun c hc => h c (List.mem_cons_of_mem a hc)
    simp [utf8EncodeChar, ha, ih ht]

theorem char_toNat_injective : Function.Injective Char.toNat := fun _ _ h =>
  Char.eq_of_val_eq (UInt32.ext h)

theorem pskBytes_injective_on_ascii (s1 s2 : String)
    (h1 : ∀ c ∈ s1.data, c.toNat < 128) (h2 : ∀ c ∈ s2.data, c.toNat < 128)
    (h : pskBytes s1 = pskBytes s2) : s1 = s2 := by
  unfold pskBytes encodeUTF8 pskString at h
  simp only [String.data_append, List.flatMap_append] at h
  have h3 := List.append_cancel_left h
  rw [encodeChars_ascii _ h1, encodeChars_ascii _ h2] at h3
  exact String.ext (List.map_injective_iff.mpr char_toNat_injective h3)

/-! ### Node and session state (class P2PNode)

`P2PNode` owns `node : Libp2p | null`, a fixed `topics` list, the stored
`staticPeers`, and the `reconnectionInterval` timer handle.  The live libp2p
node is modelled by `NodeState`: its peer id, the connected-peer list wrapped
by `getPeers()`, the discovery-layer address book (`peerStore.get`), the
pubsub subscriber lists (`getSubscribers`), the pubsub subscription set, and
whether the node is running. -/

/-- The fixed topic list `P2PNode.topics` from `src/index.ts`. -/
def teranodeTopics : List String :=
  ["bitcoin/mainnet-bestblock", "bitcoin/mainnet-block", "bitcoin/mainnet-subtree",
   "bitcoin/mainnet-mining_on", "bitcoin/mainnet-handshake", "bitcoin/mainnet-rejected_tx"]

/-- State of the live libp2p node observed through its query surface. -/
structure NodeState where
  peerId : String
  connectedPeerIds : List String
  peerStore : String → Option (List String)
  topicPeers : String → List String
  subscriptions : List String
  running : Bool

/-- Configuration options accepted by `P2PNode.create` (`P2PNodeOptions`). -/
structure P2PNodeOptions where
  listenAddresses : List String
  bootstrapPeers : List String
  staticPeers : List String
  usePrivateDHT : Bool
  sharedKey : Option String

/-- State of a `P2PNode` instance: the owned libp2p node (or `null`),
the stored static-peer list, and whether the reconnection timer is set. -/
structure SessionState where
  node : Option NodeState
  staticPeers : List String
  reconnectionInterval : Bool

/-- Effect of one `pubsub.subscribe(topic)` call on the subscription set
(gossipsub keeps a set of subscribed topics; re-subscribing is idempotent). -/
def subscribeTopic (subs : List String) (topic : String) : List String :=
  if topic ∈ subs then subs else subs ++ [topic]

/-- The libp2p node produced by `P2PNode.init`: freshly started, with the
subscription loop `for (const topic of this.topics) pubsub.subscribe(topic)`
applied.  `init` takes no topic list and no callback registry: the loop
always subscribes the fixed `teranodeTopics`. -/
def initNode (selfId : String) : NodeState :=
  { peerId := selfId
    connectedPeerIds := []
    peerStore := fun _ => none
    topicPeers := fun _ => []
    subscriptions := teranodeTopics.foldl subscribeTopic []
    running := true }

/-- The `P2PNode` instance state right after `init` returns: the static-peer
list is copied from the options, and the reconnection timer is set exactly
when the configured static-peer list is non-empty. -/
def initSession (opts : P2PNodeOptions) (selfId : String) : SessionState :=
  { node := some (initNode selfId)
    staticPeers := opts.staticPeers
    reconnectionInterval := !opts.staticPeers.isEmpty }

/-! ### Query and drive operations on a possibly-absent node -/

/-- `P2PNode.getConnectedPeers`: empty list when `this.node` is `null`. -/
def getConnectedPeers (node : Option NodeState) : List String :=
  match node with
  | none => []
  | some st => st.connectedPeerIds

/-- `P2PNode.getNodeId`: `null` when `this.node` is `null`. -/
def getNodeId (node : Option NodeState) : Option String :=
  match node with
  | none => none
  | some st => some st.peerId

/-- `P2PNode.getTopicPeers`: empty list when `this.node` is `null`,
otherwise the pubsub subscriber list for the topic. -/
def getTopicPeers (node : Option NodeState) (topic : String) : List String :=
  match node with
  | none => []
  | some st => st.topicPeers topic

/-- `P2PNode.publish`: throws `Error('Node not initialized')` when
`this.node` is `null`, otherwise forwards to `pubsub.publish`. -/
def publish (node : Option NodeState) (topic : String) (message : List Nat) :
    Except String Unit :=
  match node with
  | none => Except.error "Node not initialized"
  | some _ => Except.ok ()

/-- Effect of `await this.node.stop()` on the libp2p node (idempotent). -/
def stopNode (n : NodeState) : NodeState :=
  { n with running := false }

/-- `P2PNode.stop`: clears the reconnection interval (setting the handle to
`null`) and stops the owned node when one exists.  It is a total function:
no path of the source method throws. -/
def stop (s : SessionState) : SessionState :=
  { s with reconnectionInterval := false, node := s.node.map stopNode }

/-! ### Static-peer reconciliation (connectToStaticPeers, startStaticPeerMonitoring)

Dial outcomes are an oracle `dialOk : String → Bool`; a reconciliation tick
returns the list of dial attempts it issues, each paired with its outcome. -/

/-- The peer-id extraction `staticPeer.match(/\/p2p\/([^/]+)$/)` from
`startStaticPeerMonitoring`: the address must end in `/p2p/` followed by a
non-empty segment without a slash; that segment is returned. -/
def extractPeerId (addr : String) : Option String :=
  match addr.data.reverse.takeWhile (fun c => c != '/'),
      addr.data.reverse.dropWhile (fun c => c != '/') with
  | [], _ => none
  | seg, '/' :: 'p' :: '2' :: 'p' :: '/' :: _ => some (String.mk seg.reverse)
  | _, _ => none

/-- The monitoring loop's per-target test: a static peer is a reconnect
candidate when its address yields a peer id that is not in the live
connected-peer id list; targets whose address yields no peer id are
silently skipped. -/
def isReconnectCandidate (connectedPeerIds : List String) (staticPeer : String) : Bool :=
  match extractPeerId staticPeer with
  | some peerId => !(connectedPeerIds.contains peerId)
  | none => false

/-- `P2PNode.connectToStaticPeers`: when the node is `null` it warns and
returns with no attempts; otherwise every peer in the list is dialled, each
attempt wrapped in its own try/catch, and the attempts are joined with
`Promise.allSettled` — every attempt is made and each outcome is recorded
independently of the others. -/
def connectToStaticPeersDials (node : Option NodeState) (dialOk : String → Bool)
    (staticPeers : List String) : List (String × Bool) :=
  match node with
  | none => []
  | some _ => staticPeers.map fun peerAddr => (peerAddr, dialOk peerAddr)

/-- One tick of the `startStaticPeerMonitoring` interval: return early when
the node is `null` or the static list is empty; otherwise compute the
disconnected static peers and, when there are any, dial them via
`connectToStaticPeers`. -/
def monitorTickDials (node : Option NodeState) (staticPeers : List String)
    (dialOk : String → Bool) : List (String × Bool) :=
  match node with
  | none => []
  | some st =>
    if staticPeers.isEmpty then []
    else if (staticPeers.filter (isReconnectCandidate st.connectedPeerIds)).isEmpty then []
    else connectToStaticPeersDials (some st) dialOk
      (staticPeers.filter (isReconnectCandidate st.connectedPeerIds))

/-! ### Peer-by-id resolution (discoverPeerById, connectToPeerById) -/

/-- `P2PNode.discoverPeerById`: `null` when the node is `null`; otherwise
look the peer up in the address book (`peerStore.get`, whose failure for an
unknown peer is caught and turned into the `null` fall-through) and return
its first known address when it has one. -/
def discoverPeerById (node : Option NodeState) (peerId : String) : Option String :=
  match node with
  | none => none
  | some st =>
    match st.peerStore peerId with
    | none => none
    | some addrs => addrs.head?

/-- Observable outcome of `connectToPeerById`: the dial attempts issued and
whether a failure warning was logged. -/
structure ConnectByIdResult where
  dials : List String
  warned : Bool
  deriving DecidableEq

/-- `P2PNode.connectToPeerById`: resolve the address first; when resolution
yields an address, dial it exactly once, warning if the dial fails; when
resolution yields nothing, warn and do not dial.  No path retries. -/
def connectToPeerById (node : Option NodeState) (dialOk : String → Bool)
    (peerId : String) : ConnectByIdResult :=
  match discoverPeerById node peerId with
  | some address => { dials := [address], warned := !(dialOk address) }
  | none => { dials := [], warned := true }

/-! ### Topic-dispatch multiplexer (class TeranodeListener) -/

/-- Modelled from the spec: an inbound overlay message event, carrying the
topic name, the payload bytes, and the originating peer identifier.  The
implementation of `class TeranodeListener` (the topic-dispatch multiplexer
of `src/index.ts`) is not among the provided sources — only its API
declaration in the README and its caller `demo.ts` are — so the dispatch
path is modelled from spec section 4.3. -/
structure MessageEvent where
  topic : String
  data : List Nat
  fromPeer : String

/-- Modelled from the spec: the argument triple `(payload, topic,
originPeerId)` passed to a registered topic callback. -/
structure Invocation where
  data : List Nat
  topic : String
  fromPeer : String
  deriving DecidableEq

/-- Modelled from the spec: the observable outcome of dispatching one
message event — the callback invocations performed (callback identifier
paired with its argument triple), the callback errors caught and logged at
the dispatch boundary, and the error, if any, propagated out of the
dispatch path. -/
structure DispatchResult where
  invocations : List (Nat × Invocation)
  loggedErrors : List String
  raised : Option String
  deriving DecidableEq

/-- Modelled from the spec: the registry lookup "the callback registered
for that exact topic name".  Callbacks are identified by numbers; the
registry maps at most one callback per topic. -/
def lookupCallback (cbs : List (String × Nat)) (topic : String) : Option Nat :=
  (cbs.find? fun p => p.fst == topic).map Prod.snd

/-- Modelled from the spec (TeranodeListener dispatch, spec section 4.3):
on a message event, look up the callback registered for the event's topic;
if found, invoke it once with `(payload, topic, originPeerId)`, catching
and logging any error it raises; if not found, drop the message silently.
`run` gives each callback's behaviour on an argument triple. -/
def dispatchMessage (cbs : List (String × Nat))
    (run : Nat → Invocation → Except String Unit) (evt : MessageEvent) :
    DispatchResult :=
  match lookupCallback cbs evt.topic with
  | none => { invocations := [], loggedErrors := [], raised := none }
  | some cb =>
    match run cb { data := evt.data, topic := evt.topic, fromPeer := evt.fromPeer } with
    | Except.ok _ =>
      { invocations := [(cb, { data := evt.data, topic := evt.topic, fromPeer := evt.fromPeer })]
        loggedErrors := []
        raised := none }
    | Except.error e =>
      { invocations := [(cb, { data := evt.data, topic := evt.topic, fromPeer := evt.fromPeer })]
        loggedErrors := [e]
        raised := none }

/-- Modelled from the spec: the event source delivers messages in order; an
error escaping a listener would tear down the event source, so processing
stops after the first dispatch whose `raised` field is not `none`. -/
def processEvents (cbs : List (String × Nat))
    (run : Nat → Invocation → Except String Unit) :
    List MessageEvent → List DispatchResult
  | [] => []
  | evt :: rest =>
    match (dispatchMessage cbs run evt).raised with
    | some _ => [dispatchMessage cbs run evt]
    | none => dispatchMessage cbs run evt :: processEvents cbs run rest

/-- The registered topics of a callback registry. -/
def registeredTopics (cbs : List (String × Nat)) : List String :=
  cbs.map Prod.fst

theorem dispatchMessage_raised_none (cbs : List (String × Nat))
    (run : Nat → Invocation → Except String Unit) (evt : MessageEvent) :
    (dispatchMessage cbs run evt).raised = none := by
  unfold dispatchMessage
  split
  · rfl
  · split <;> rfl

theorem processEvents_length (cbs : List (String × Nat))
    (run : Nat → Invocation → Except String Unit) :
    ∀ evts : List MessageEvent, (processEvents cbs run evts).length = evts.length := by
  intro evts
  induction evts with
  | nil => rfl
  | cons evt rest ih =>
    simp only [processEvents, dispatchMessage_raised_none cbs run evt, List.length_cons, ih]

/-! ### Helper lemmas about the reconciliation tick -/

theorem connectDials_targets (st : NodeState) (dialOk : String → Bool)
    (peers : List String) :
    (connectToStaticPeersDials (some st) dialOk peers).map Prod.fst = peers := by
  simp only [connectToStaticPeersDials, List.map_map]
  exact List.map_id'' (fun _ => rfl) peers

theorem mem_tick_dials_isCandidate (st : NodeState) (staticPeers : List String)
    (dialOk : String → Bool) (x : String)
    (hx : x ∈ (monitorTickDials (some st) staticPeers dialOk).map Prod.fst) :
    isReconnectCandidate st.connectedPeerIds x = true := by
  have hx : x ∈ (if staticPeers.isEmpty then ([] : List (String × Bool))
      else if (staticPeers.filter (isReconnectCandidate st.connectedPeerIds)).isEmpty then []
      else connectToStaticPeersDials (some st) dialOk
        (staticPeers.filter (isReconnectCandidate st.connectedPeerIds))).map Prod.fst := hx
  by_cases h1 : staticPeers.isEmpty
  · simp [h1] at hx
  · rw [if_neg h1] at hx
    by_cases h2 : (staticPeers.filter (isReconnectCandidate st.connectedPeerIds)).isEmpty
    · simp [h2] at hx
    · rw [if_neg h2, connectDials_targets] at hx
      exact (List.mem_filter.mp hx).2

/-! ### Concrete values used by witnesses and counterexamples -/

/-- A callback registry with one callback (number 7) for the block topic. -/
def witnessCallbacks : List (String × Nat) := [("bitcoin/mainnet-block", 7)]

/-- A concrete inbound message event on the block topic. -/
def witnessEvent : MessageEvent :=
  { topic := "bitcoin/mainnet-block", data := [1, 2, 3], fromPeer := "12D3KooWOrigin" }

/-- Callback behaviour where every callback returns normally. -/
def witnessRun : Nat → Invocation → Except String Unit := fun _ _ => Except.ok ()

/-- Callback behaviour where every callback raises an error. -/
def witnessErrRun : Nat → Invocation → Except String Unit := fun _ _ => Except.error "boom"

/-- A static-peer multiaddr carrying a `/p2p/` peer-id suffix. -/
def staticPeerA : String := "/ip4/192.168.1.100/tcp/4003/p2p/12D3KooWStaticA"

/-- Another static-peer multiaddr carrying a `/p2p/` peer-id suffix. -/
def staticPeerB : String := "/ip4/192.168.1.101/tcp/4003/p2p/12D3KooWStaticB"

/-- A dial oracle under which the dial of `staticPeerA` fails and the dial
of `staticPeerB` succeeds. -/
def witnessDialOk : String → Bool := fun sp => sp == staticPeerB

/-- A node whose address book knows one address for one peer. -/
def witnessPeerNode : NodeState :=
  { peerId := "12D3KooWSelf"
    connectedPeerIds := []
    peerStore := fun pid =>
      if pid == "12D3KooWKnown" then some ["/ip4/10.0.0.10/tcp/4003"] else none
    topicPeers := fun _ => []
    subscriptions := []
    running := true }

/-! ### Claim theorems -/

/-- Claim C1: for every topic with a registered callback, a message event
on that topic results in exactly one invocation of the callback registered
for it, with the payload bytes unchanged together with the topic name and
the originating peer identifier. -/
theorem dispatch_invokes_registered_callback_once (cbs : List (String × Nat))
    (run : Nat → Invocation → Except String Unit) (evt : MessageEvent) (cb : Nat)
    (hcb : lookupCallback cbs evt.topic = some cb) :
    (dispatchMessage cbs run evt).invocations
      = [(cb, { data := evt.data, topic := evt.topic, fromPeer := evt.fromPeer })] := by
  simp only [dispatchMessage, hcb]
  split <;> rfl

/-- Witness for C1: the callback registered for the block topic is invoked
exactly once with the original payload, the topic, and the origin peer. -/
theorem dispatch_invokes_registered_callback_once_witness :
    (dispatchMessage witnessCallbacks witnessRun witnessEvent).invocations
      = [(7, { data := [1, 2, 3], topic := "bitcoin/mainnet-block",
               fromPeer := "12D3KooWOrigin" })] :=
  dispatch_invokes_registered_callback_once witnessCallbacks witnessRun witnessEvent 7
    (by decide)

/-- Claim C2, counterexample: right after `init` — a reachable state of a
session whose registry holds a callback for the block topic only — the node
is subscribed to `bitcoin/mainnet-subtree` although no callback is
registered for it, so the subscription set does not equal the
registered-callback topic set. -/
theorem subscription_callback_invariant_counterexample :
    "bitcoin/mainnet-subtree" ∈ (initNode "12D3KooWSelf").subscriptions
    ∧ "bitcoin/mainnet-subtree" ∉ registeredTopics [("bitcoin/mainnet-block", 0)] := by
  decide

/-- Claim C2, amended: after `init` the node's subscription set is the
fixed six-topic list, independent of the configuration options and of
whichever callbacks are registered (`init` consults no callback registry),
so subscriptions without a registered callback are possible. -/
theorem init_subscribes_fixed_topic_list (opts : P2PNodeOptions) (selfId : String) :
    ∃ n, (initSession opts selfId).node = some n ∧ n.subscriptions = teranodeTopics :=
  ⟨initNode selfId, rfl, by
    show teranodeTopics.foldl subscribeTopic [] = teranodeTopics
    decide⟩

/-- Claim C3: the derived private-admission token is the fixed textual
envelope (schema tag line, encoding tag line, then the hex secret)
byte-encoded; equal hex secrets derive byte-identical tokens and different
hex secrets derive different token byte sequences. -/
theorem psk_token_deterministic_injective (s1 s2 : String)
    (h1 : isHexKey s1 = true) (h2 : isHexKey s2 = true) :
    pskString s1 = schemaTagLine ++ encodingTagLine ++ s1
    ∧ (s1 = s2 → pskBytes s1 = pskBytes s2)
    ∧ (s1 ≠ s2 → pskBytes s1 ≠ pskBytes s2) := by
  refine ⟨rfl, fun h => h ▸ rfl, fun hne hb => hne ?_⟩
  exact pskBytes_injective_on_ascii s1 s2 (hexKey_ascii s1 h1) (hexKey_ascii s2 h2) hb

/-- Witness for C3 at the hex secrets `0a` and `ff`. -/
theorem psk_token_deterministic_injective_witness :
    pskString "0a" = schemaTagLine ++ encodingTagLine ++ "0a"
    ∧ pskBytes "0a" = pskBytes "0a"
    ∧ pskBytes "0a" ≠ pskBytes "ff" :=
  ⟨(psk_token_deterministic_injective "0a" "0a" (by decide) (by decide)).1,
   (psk_token_deterministic_injective "0a" "0a" (by decide) (by decide)).2.1 rfl,
   (psk_token_deterministic_injective "0a" "ff" (by decide) (by decide)).2.2 (by decide)⟩

/-- Claim C4, counterexample: a static target list of size 1 whose only
entry has no `/p2p/` peer-id suffix, with a connected set containing none
of the targets, produces 0 dial attempts in one reconciliation tick, not
exactly N = 1. -/
theorem reconcile_tick_skips_unsuffixed_counterexample :
    (monitorTickDials (some (initNode "12D3KooWSelf")) ["/ip4/192.168.1.100/tcp/4003"]
      (fun _ => true)).length = 0 := by
  decide

/-- Claim C4, amended: for a static target list of size N in which every
target is a reconnect candidate (its multiaddr ends in a `/p2p/` peer id
that is not in the live connected set), one reconciliation tick issues
exactly N dial attempts, one per target with its own outcome, and the set
of attempted targets is the full list — independent of which dials fail. -/
theorem reconcile_tick_dials_all_candidates (st : NodeState) (staticPeers : List String)
    (dialOk : String → Bool)
    (hall : staticPeers.all (isReconnectCandidate st.connectedPeerIds) = true) :
    monitorTickDials (some st) staticPeers dialOk
      = staticPeers.map (fun sp => (sp, dialOk sp))
    ∧ (monitorTickDials (some st) staticPeers dialOk).length = staticPeers.length
    ∧ (monitorTickDials (some st) staticPeers dialOk).map Prod.fst = staticPeers := by
  have hfilter : staticPeers.filter (isReconnectCandidate st.connectedPeerIds) = staticPeers :=
    List.filter_eq_self.mpr (List.all_eq_true.mp hall)
  have hmain : monitorTickDials (some st) staticPeers dialOk
      = staticPeers.map (fun sp => (sp, dialOk sp)) := by
    show (if staticPeers.isEmpty then ([] : List (String × Bool))
      else if (staticPeers.filter (isReconnectCandidate st.connectedPeerIds)).isEmpty then []
      else connectToStaticPeersDials (some st) dialOk
        (staticPeers.filter (isReconnectCandidate st.connectedPeerIds)))
      = staticPeers.map (fun sp => (sp, dialOk sp))
    rw [hfilter]
    cases staticPeers with
    | nil => rfl
    | cons a t => rfl
  refine ⟨hmain, ?_, ?_⟩
  · rw [hmain, List.length_map]
  · rw [hmain, List.map_map]
    exact List.map_id'' (fun _ => rfl) staticPeers

/-- Witness for C4: two candidate targets, a dial oracle under which the
first dial fails and the second succeeds; both dial attempts are issued. -/
theorem reconcile_tick_dials_all_candidates_witness :
    [staticPeerA, staticPeerB].all
      (isReconnectCandidate (initNode "12D3KooWSelf").connectedPeerIds) = true
    ∧ (monitorTickDials (some (initNode "12D3KooWSelf")) [staticPeerA, staticPeerB]
          witnessDialOk
        = [staticPeerA, staticPeerB].map (fun sp => (sp, witnessDialOk sp))
      ∧ (monitorTickDials (some (initNode "12D3KooWSelf")) [staticPeerA, staticPeerB]
          witnessDialOk).length = ([staticPeerA, staticPeerB] : List String).length
      ∧ (monitorTickDials (some (initNode "12D3KooWSelf")) [staticPeerA, staticPeerB]
          witnessDialOk).map Prod.fst = [staticPeerA, staticPeerB]) :=
  ⟨by decide, reconcile_tick_dials_all_candidates (initNode "12D3KooWSelf")
    [staticPeerA, staticPeerB] witnessDialOk (by decide)⟩

/-- Claim C5: a callback error is caught at the dispatch boundary and
logged; nothing is raised out of the dispatch path, and processing of the
subsequent messages delivered by the event source is not cut short. -/
theorem dispatch_callback_error_contained (cbs : List (String × Nat))
    (run : Nat → Invocation → Except String Unit) (evt : MessageEvent) (cb : Nat) (e : String)
    (hcb : lookupCallback cbs evt.topic = some cb)
    (herr : run cb { data := evt.data, topic := evt.topic, fromPeer := evt.fromPeer }
      = Except.error e) :
    (dispatchMessage cbs run evt).raised = none
    ∧ (dispatchMessage cbs run evt).loggedErrors = [e]
    ∧ ∀ evts : List MessageEvent,
        (processEvents cbs run (evt :: evts)).length = evts.length + 1 := by
  refine ⟨dispatchMessage_raised_none cbs run evt, ?_,
    fun evts => processEvents_length cbs run (evt :: evts)⟩
  simp only [dispatchMessage, hcb, herr]

/-- Witness for C5: a callback that raises `boom` on the block topic; the
error is logged, nothing propagates, and a following message is still
processed. -/
theorem dispatch_callback_error_contained_witness :
    (dispatchMessage witnessCallbacks witnessErrRun witnessEvent).raised = none
    ∧ (dispatchMessage witnessCallbacks witnessErrRun witnessEvent).loggedErrors = ["boom"]
    ∧ (processEvents witnessCallbacks witnessErrRun (witnessEvent :: [witnessEvent])).length
        = [witnessEvent].length + 1 := by
  have h := dispatch_callback_error_contained witnessCallbacks witnessErrRun witnessEvent 7
    "boom" (by decide) rfl
  exact ⟨h.1, h.2.1, h.2.2 [witnessEvent]⟩

/-- Claim C6, counterexample: `publish` invoked while the node is
unavailable raises `Node not initialized` instead of being a silent
no-op. -/
theorem publish_unavailable_raises_counterexample :
    publish none "bitcoin/mainnet-block" [] = Except.error "Node not initialized" := rfl

/-- Claim C6, amended: while the node is unavailable, `getConnectedPeers`,
`getNodeId` and `getTopicPeers` are no-ops returning empty results, but
`publish` raises the error `Node not initialized`. -/
theorem unavailable_node_query_defaults (topic : String) (message : List Nat) :
    getConnectedPeers none = []
    ∧ getNodeId none = none
    ∧ getTopicPeers none topic = []
    ∧ publish none topic message = Except.error "Node not initialized" :=
  ⟨rfl, rfl, rfl, rfl⟩

/-- Claim C7: a message event on a topic with no registered callback
produces zero callback invocations, logs nothing, and raises nothing — the
message is dropped silently. -/
theorem dispatch_unregistered_topic_silent (cbs : List (String × Nat))
    (run : Nat → Invocation → Except String Unit) (evt : MessageEvent)
    (h : lookupCallback cbs evt.topic = none) :
    dispatchMessage cbs run evt
      = { invocations := [], loggedErrors := [], raised := none } := by
  simp only [dispatchMessage, h]

/-- Witness for C7: a block-topic event against a registry holding only a
subtree-topic callback is dropped silently. -/
theorem dispatch_unregistered_topic_silent_witness :
    dispatchMessage [("bitcoin/mainnet-subtree", 3)] witnessRun witnessEvent
      = { invocations := [], loggedErrors := [], raised := none } :=
  dispatch_unregistered_topic_silent [("bitcoin/mainnet-subtree", 3)] witnessRun witnessEvent
    (by decide)

/-- Claim C8: `stop` cancels the reconciliation timer and stops the owned
node, leaves the rest of the session state unchanged, raises no error (it
is a total function), and is idempotent: stopping an already-stopped
session changes nothing. -/
theorem stop_cancels_timer_and_idempotent (s : SessionState) :
    (stop s).reconnectionInterval = false
    ∧ ((stop s).node.all fun n => !n.running) = true
    ∧ (stop s).staticPeers = s.staticPeers
    ∧ stop (stop s) = stop s := by
  obtain ⟨n, sp, ri⟩ := s
  cases n <;> simp [stop, stopNode, Option.all]

/-- Claim C9: `connectToPeerById` resolves the peer's address from the
address book first; with no resolved address it warns and issues no dial;
with a resolved address it dials it exactly once, warning when the dial
fails; no path retries. -/
theorem connect_by_id_resolve_then_dial (node : Option NodeState) (dialOk : String → Bool)
    (pid : String) :
    (discoverPeerById node pid = none →
      (connectToPeerById node dialOk pid).dials = []
      ∧ (connectToPeerById node dialOk pid).warned = true)
    ∧ ∀ a : String, discoverPeerById node pid = some a →
      (connectToPeerById node dialOk pid).dials = [a]
      ∧ (dialOk a = false → (connectToPeerById node dialOk pid).warned = true) := by
  constructor
  · intro h
    simp [connectToPeerById, h]
  · intro a h
    refine ⟨by simp [connectToPeerById, h], fun hfail => by simp [connectToPeerById, h, hfail]⟩

/-- Witness for C9: a known peer resolves to its stored address and is
dialled exactly once (the failing dial is reported); an unknown peer
resolves to nothing, produces a warning, and is never dialled. -/
theorem connect_by_id_resolve_then_dial_witness :
    (connectToPeerById (some witnessPeerNode) (fun _ => false) "12D3KooWKnown").dials
      = ["/ip4/10.0.0.10/tcp/4003"]
    ∧ (connectToPeerById (some witnessPeerNode) (fun _ => false) "12D3KooWKnown").warned = true
    ∧ (connectToPeerById (some witnessPeerNode) (fun _ => false) "12D3KooWMissing").dials = []
    ∧ (connectToPeerById (some witnessPeerNode) (fun _ => false) "12D3KooWMissing").warned
        = true := by
  refine ⟨?_, ?_, ?_, ?_⟩
  · exact ((connect_by_id_resolve_then_dial (some witnessPeerNode) (fun _ => false)
      "12D3KooWKnown").2 "/ip4/10.0.0.10/tcp/4003" (by decide)).1
  · exact ((connect_by_id_resolve_then_dial (some witnessPeerNode) (fun _ => false)
      "12D3KooWKnown").2 "/ip4/10.0.0.10/tcp/4003" (by decide)).2 rfl
  · exact ((connect_by_id_resolve_then_dial (some witnessPeerNode) (fun _ => false)
      "12D3KooWMissing").1 (by decide)).1
  · exact ((connect_by_id_resolve_then_dial (some witnessPeerNode) (fun _ => false)
      "12D3KooWMissing").1 (by decide)).2

/-- Claim C10: a static target whose multiaddr does not end in a `/p2p/`
peer-id component is never dialled by a reconciliation tick — for every
connected-peer set and every target list, no dial attempt carries it. -/
theorem unsuffixed_static_peer_never_dialed (st : NodeState) (staticPeers : List String)
    (dialOk : String → Bool) (sp : String) (h : extractPeerId sp = none) :
    sp ∉ (monitorTickDials (some st) staticPeers dialOk).map Prod.fst := by
  intro hmem
  have hc := mem_tick_dials_isCandidate st staticPeers dialOk sp hmem
  simp [isReconnectCandidate, h] at hc

/-- Witness for C10: the suffix-less target in a two-target list is never
dialled by the tick, while the tick still runs for the suffixed target. -/
theorem unsuffixed_static_peer_never_dialed_witness :
    extractPeerId "/ip4/192.168.1.100/tcp/4003" = none
    ∧ "/ip4/192.168.1.100/tcp/4003" ∉ (monitorTickDials (some (initNode "12D3KooWSelf"))
        ["/ip4/192.168.1.100/tcp/4003", staticPeerA] (fun _ => true)).map Prod.fst :=
  ⟨by decide, unsuffixed_static_peer_never_dialed (initNode "12D3KooWSelf")
    ["/ip4/192.168.1.100/tcp/4003", staticPeerA] (fun _ => true)
    "/ip4/192.168.1.100/tcp/4003" (by decide)⟩

end TsP2P
